import Mathlib

/-!
Verification of the Windows desktop audio/video capture engine
(`src/lib/capture_win`).  The definitions below are shallow embeddings of
the C++ source: configuration records, the resource-acquisition sequence of
`AudioCaptureImpl::start`, the per-packet audio conversion pipeline of
`AudioCaptureImpl::captureThreadProc`, the aggregate start logic of
`MediaCaptureClient::startCapture`, and the frame-pacing / encoding
decisions of `VideoCaptureImpl`.  Platform calls (WASAPI, DXGI, GDI+,
libsamplerate) are modelled as oracles: booleans saying whether each call
succeeds, and a resampler function supplied as a parameter.
-/

namespace Capture

/-- Embeds `MediaCaptureConfigC` from `src/include/capture/capture.h`
(lines 69–80).  `bundleID` is omitted (macOS only, never read by the
Windows engines). -/
structure MediaCaptureConfigC where
  frameRate : ℚ
  quality : Int
  audioSampleRate : Int
  audioChannels : Int
  displayID : Nat
  windowID : Nat
  isElectron : Int
  qualityValue : Int
  imageFormat : Int
  deriving DecidableEq

/-- The parts of `WAVEFORMATEX` / `WAVEFORMATEXTENSIBLE` that
`AudioCaptureImpl` reads: format tag, IEEE-float subformat flag, bit
depth, channel count and native sample rate. -/
structure WaveFormat where
  wFormatTag : Nat
  subFormatIsIEEEFloat : Bool
  wBitsPerSample : Nat
  nChannels : Nat
  nSamplesPerSec : Int
  deriving DecidableEq

/-- The `WAVE_FORMAT_EXTENSIBLE` tag value. -/
def WAVE_FORMAT_EXTENSIBLE : Nat := 0xFFFE

/-- Embeds the format check of `audiocaptureimpl.cc` lines 163–166:
extensible tag, IEEE-float subformat, 32 bits per sample. -/
def formatIsValid (f : WaveFormat) : Bool :=
  f.wFormatTag == WAVE_FORMAT_EXTENSIBLE && f.subFormatIsIEEEFloat &&
    f.wBitsPerSample == 32

/-- Which error `AudioCaptureImpl::start` reports on each early-return
path, in source order (`audiocaptureimpl.cc` lines 49–246). -/
inductive AudioStartErr where
  | badChannels
  | badSampleRate
  | comFailed
  | srcNewFailed
  | coCreateFailed
  | endpointFailed
  | activateFailed
  | mixFormatFailed
  | unsupportedFormat
  | eventFailed
  | initFailed
  | setEventFailed
  | serviceFailed
  | clientStartFailed
  deriving DecidableEq

/-- Success/failure oracle for each platform call made by
`AudioCaptureImpl::start`, plus the mix format the device reports. -/
structure AudioEnv where
  comOk : Bool
  srcNewOk : Bool
  coCreateOk : Bool
  endpointOk : Bool
  activateOk : Bool
  mixFormatOk : Bool
  mixFormat : WaveFormat
  createEventOk : Bool
  initializeOk : Bool
  setEventOk : Bool
  getServiceOk : Bool
  clientStartOk : Bool
  deriving DecidableEq

/-- Which handles `AudioCaptureImpl` holds: one flag per member that
`start` can acquire (`audiocaptureimpl.h` lines 70–113). -/
structure AudioHandles where
  sampleRateConverter : Bool
  enumerator : Bool
  device : Bool
  audioClient : Bool
  format : Bool
  hEvent : Bool
  captureClient : Bool
  deriving DecidableEq

/-- The all-released handle state, as after the constructor. -/
def AudioHandles.none : AudioHandles :=
  { sampleRateConverter := false, enumerator := false, device := false
    audioClient := false, format := false, hEvent := false
    captureClient := false }

/-- Outcome of `AudioCaptureImpl::start`: the returned boolean, the error
reported through the exit callback (if any), the handles still held when
`start` returns, and whether the capture thread was launched. -/
structure AudioStartResult where
  ok : Bool
  err : Option AudioStartErr
  handles : AudioHandles
  capturing : Bool
  deriving DecidableEq

/-- Embeds `AudioCaptureImpl::start` (`audiocaptureimpl.cc` lines 41–256):
the exact validation order, the resource acquired before each check, and
the handle state left behind on every early return.  The enumerator is
released right after the endpoint is obtained (lines 133–134); no other
handle is released on any failure path. -/
def audioStart (config : MediaCaptureConfigC) (env : AudioEnv) :
    AudioStartResult :=
  if config.audioChannels ≤ 0 ∨ 2 < config.audioChannels then
    { ok := false, err := some AudioStartErr.badChannels
      handles := AudioHandles.none, capturing := false }
  else if config.audioSampleRate ≤ 0 then
    { ok := false, err := some AudioStartErr.badSampleRate
      handles := AudioHandles.none, capturing := false }
  else if config.isElectron ≠ 1 ∧ env.comOk = false then
    { ok := false, err := some AudioStartErr.comFailed
      handles := AudioHandles.none, capturing := false }
  else if env.srcNewOk = false then
    { ok := false, err := some AudioStartErr.srcNewFailed
      handles := AudioHandles.none, capturing := false }
  else
    let h1 := { AudioHandles.none with sampleRateConverter := true }
    if env.coCreateOk = false then
      { ok := false, err := some AudioStartErr.coCreateFailed
        handles := h1, capturing := false }
    else
      let h2 := { h1 with enumerator := true }
      if env.endpointOk = false then
        { ok := false, err := some AudioStartErr.endpointFailed
          handles := h2, capturing := false }
      else
        let h3 := { h2 with device := true, enumerator := false }
        if env.activateOk = false then
          { ok := false, err := some AudioStartErr.activateFailed
            handles := h3, capturing := false }
        else
          let h4 := { h3 with audioClient := true }
          if env.mixFormatOk = false then
            { ok := false, err := some AudioStartErr.mixFormatFailed
              handles := h4, capturing := false }
          else
            let h5 := { h4 with format := true }
            if formatIsValid env.mixFormat = false then
              { ok := false, err := some AudioStartErr.unsupportedFormat
                handles := h5, capturing := false }
            else if env.createEventOk = false then
              { ok := false, err := some AudioStartErr.eventFailed
                handles := h5, capturing := false }
            else
              let h6 := { h5 with hEvent := true }
              if env.initializeOk = false then
                { ok := false, err := some AudioStartErr.initFailed
                  handles := h6, capturing := false }
              else if env.setEventOk = false then
                { ok := false, err := some AudioStartErr.setEventFailed
                  handles := h6, capturing := false }
              else if env.getServiceOk = false then
                { ok := false, err := some AudioStartErr.serviceFailed
                  handles := h6, capturing := false }
              else
                let h7 := { h6 with captureClient := true }
                if env.clientStartOk = false then
                  { ok := false, err := some AudioStartErr.clientStartFailed
                    handles := h7, capturing := false }
                else
                  { ok := true, err := Option.none, handles := h7
                    capturing := true }

/-- One WASAPI packet as drained by the capture thread: the silent flag
(`AUDCLNT_BUFFERFLAGS_SILENT`), the frame count `numFramesInPacket`, and
the interleaved native float samples (modelled as rationals). -/
structure AudioPacket where
  silent : Bool
  frames : Nat
  samples : List ℚ
  deriving DecidableEq

/-- Embeds the channel conversion of `audiocaptureimpl.cc` lines 315–327:
when the native channel count exceeds 1 and one output channel is
requested, each output frame is the per-frame channel sum divided by the
native channel count; otherwise the buffer is copied unchanged. -/
def convertChannels (nativeChannels : Nat) (cfgChannels : Int)
    (frames : Nat) (buf : List ℚ) : List ℚ :=
  if 1 < nativeChannels ∧ cfgChannels = 1 then
    (List.range frames).map fun i =>
      (((List.range nativeChannels).map fun ch =>
        buf.getD (i * nativeChannels + ch) 0).sum) / nativeChannels
  else buf

/-- Result of one `src_process` call: either a libsamplerate error, or a
new resampler state with the generated output and its frame count. -/
inductive ResampleOut (σ : Type) where
  | err (st : σ)
  | ok (st : σ) (out : List ℚ) (gen : Nat)

/-- One frame batch handed to the audio data callback: channel count,
sample rate, sample buffer and frame count, in the argument order of
`MediaCaptureAudioDataCallback`. -/
structure Delivered where
  channels : Int
  sampleRate : Int
  buffer : List ℚ
  frameCount : Nat
  deriving DecidableEq

/-- Embeds the per-packet body of `AudioCaptureImpl::captureThreadProc`
(`audiocaptureimpl.cc` lines 307–366): skip silent or empty packets;
downmix; if the native rate differs from the target rate, size the output
to `ceil(frames * ratio)`, run the resampler, and deliver only when it
generated at least one frame; otherwise deliver the converted buffer
directly with the native sample rate.  The resampler is an oracle with
persistent state `σ` (the `SRC_STATE` kept across packets). -/
def processPacket {σ : Type} (config : MediaCaptureConfigC)
    (format : WaveFormat) (resample : σ → List ℚ → Nat → ResampleOut σ)
    (st : σ) (pkt : AudioPacket) : σ × Option Delivered :=
  if pkt.silent = false ∧ 0 < pkt.frames then
    if format.nSamplesPerSec ≠ config.audioSampleRate then
      match resample st
          (convertChannels format.nChannels config.audioChannels
            pkt.frames pkt.samples)
          ((⌈(pkt.frames : ℚ) * ((config.audioSampleRate : ℚ) /
            (format.nSamplesPerSec : ℚ))⌉).toNat) with
      | ResampleOut.err st1 => (st1, Option.none)
      | ResampleOut.ok st1 out gen =>
        if 0 < gen then
          (st1, some { channels := config.audioChannels
                       sampleRate := config.audioSampleRate
                       buffer := out, frameCount := gen })
        else (st1, Option.none)
    else
      (st, some { channels := config.audioChannels
                  sampleRate := format.nSamplesPerSec
                  buffer := convertChannels format.nChannels
                    config.audioChannels pkt.frames pkt.samples
                  frameCount := pkt.frames })
  else (st, Option.none)

/-- One drain cycle of the capture thread: after the event wait, the inner
loop of `captureThreadProc` (lines 288–388) processes every pending packet
in order, threading the resampler state, and collects the deliveries made
to the audio callback. -/
def drainCycle {σ : Type} (config : MediaCaptureConfigC)
    (format : WaveFormat) (resample : σ → List ℚ → Nat → ResampleOut σ) :
    σ → List AudioPacket → σ × List Delivered
  | st, [] => (st, [])
  | st, pkt :: rest =>
    match processPacket config format resample st pkt with
    | (st1, some d) =>
      let r := drainCycle config format resample st1 rest
      (r.1, d :: r.2)
    | (st1, Option.none) => drainCycle config format resample st1 rest

/-- Inputs of `MediaCaptureClient::startCapture` beyond the config: the
session state and which callbacks the caller supplied, plus an oracle for
the outcome of each sub-engine start. -/
structure MediaStartInputs where
  alreadyCapturing : Bool
  hasAudioCallback : Bool
  hasVideoCallback : Bool
  audioStartOk : Bool
  videoStartOk : Bool
  deriving DecidableEq

/-- Audio is attempted exactly when an audio callback is supplied
(`mediacaptureclient.cc` line 83). -/
def audioAttempted (inp : MediaStartInputs) : Bool :=
  inp.hasAudioCallback

/-- Video is attempted exactly when a video callback is supplied and a
display or window target is present (`mediacaptureclient.cc` line 91). -/
def videoAttempted (config : MediaCaptureConfigC)
    (inp : MediaStartInputs) : Bool :=
  inp.hasVideoCallback && (decide (0 < config.displayID) ||
    decide (0 < config.windowID))

/-- Embeds `MediaCaptureClient::startCapture` (`mediacaptureclient.cc`
lines 61–124): fail when already capturing; otherwise both result flags
start out `true`, each attempted sub-engine overwrites its flag with its
start outcome, and the call succeeds when either flag is still true. -/
def mediaStartCapture (config : MediaCaptureConfigC)
    (inp : MediaStartInputs) : Bool :=
  if inp.alreadyCapturing then false
  else
    let audioResult := if audioAttempted inp then inp.audioStartOk else true
    let videoResult :=
      if videoAttempted config inp then inp.videoStartOk else true
    audioResult || videoResult

/-- Embeds the encoder-quality selection of
`VideoCaptureImpl::captureThreadProc` (`videocaptureimpl.cc` lines
333–345): default 90, overridden by the quality tier 0→95, 1→85, 2→75.
No other configuration field is consulted. -/
def encoderQuality (config : MediaCaptureConfigC) : Int :=
  if config.quality = 0 then 95
  else if config.quality = 1 then 85
  else if config.quality = 2 then 75
  else 90

/-- Modelled from the spec for comparison with `encoderQuality`: the tier
mapping with the numeric `qualityValue` override taking precedence
whenever it is greater than 0. -/
def claimedEncoderQuality (config : MediaCaptureConfigC) : Int :=
  if 0 < config.qualityValue then config.qualityValue
  else if config.quality = 0 then 95
  else if config.quality = 1 then 85
  else if config.quality = 2 then 75
  else 90

/-- Truncation of a 64-bit millisecond count to `int32_t`, as in the
timestamp cast of `videocaptureimpl.cc` line 357. -/
def toInt32 (n : Int) : Int := (n + 2 ^ 31) % 2 ^ 32 - 2 ^ 31

/-- The delivery payload handed to `MediaCaptureDataCallback` by
`VideoCaptureImpl::captureThreadProc` (lines 354–360). -/
structure EncodedFrameOut where
  formatTag : String
  timestampMs : Int
  width : Int
  height : Int
  bytesPerRow : Int
  byteLength : Nat
  deriving DecidableEq

/-- Embeds the delivery step of `VideoCaptureImpl::captureThreadProc`
(lines 347–360): the processed frame is encoded by `encodeFrameToJPEG`
(its byte output is the oracle argument `jpegBytes`), and delivered only
when non-empty — always with the literal tag of line 359 and the
millisecond timestamp truncated to 32 bits. -/
def deliverVideoFrame (config : MediaCaptureConfigC)
    (width height bytesPerRow : Int) (currentTimeMs : Int)
    (jpegBytes : List Nat) : Option EncodedFrameOut :=
  if jpegBytes.isEmpty then Option.none
  else
    some { formatTag := "jpeg", timestampMs := toInt32 currentTimeMs
           width := width, height := height, bytesPerRow := bytesPerRow
           byteLength := jpegBytes.length }

/-- Modelled from the spec for comparison with `deliverVideoFrame`: the
format tag the configuration's `imageFormat` field selects (0 = compressed
JPEG, 1 = raw pixels). -/
def claimedFormatTag (config : MediaCaptureConfigC) : String :=
  if config.imageFormat = 0 then "jpeg" else "raw"

/-- The frame rate actually used by `VideoCaptureImpl::start` (lines
111–114): the configured rate, defaulting to 30 when non-positive. -/
def effectiveFrameRate (frameRate : ℚ) : ℚ :=
  if frameRate ≤ 0 then 30 else frameRate

/-- The pacing interval in whole milliseconds (`videocaptureimpl.cc` line
116): `1000 / frameRate` truncated by the `static_cast<int>`. -/
def frameIntervalMs (frameRate : ℚ) : Int :=
  ⌊1000 / effectiveFrameRate frameRate⌋

/-- Outcome of `IDXGIOutputDuplication::AcquireNextFrame` as seen by
`VideoCaptureImpl::captureFrame`. -/
inductive AcquireOutcome where
  | timeout
  | failure
  | newFrame
  deriving DecidableEq

/-- Embeds the decision of `VideoCaptureImpl::captureFrame` (lines
364–412): a fresh frame proceeds, a non-timeout failure skips, and a
timeout proceeds (forcing a capture of the previously staged image) iff
the time since the last successful acquisition exceeds
`2000 / frameRate` where `frameRate` is recomputed on line 373 as
`1000 / frameIntervalMs`. -/
def captureFrameProceeds (config : MediaCaptureConfigC)
    (outcome : AcquireOutcome) (elapsedSinceSuccessMs : Int) : Bool :=
  match outcome with
  | AcquireOutcome.newFrame => true
  | AcquireOutcome.failure => false
  | AcquireOutcome.timeout =>
    decide ((elapsedSinceSuccessMs : ℚ) >
      2000 / (1000 / (frameIntervalMs config.frameRate : ℚ)))

/-- Modelled from the spec for comparison with `captureFrameProceeds`:
the claimed forcing threshold of twice the target interval, read as
`2 × (1000 / frameRate)` without truncation. -/
def claimedForce (config : MediaCaptureConfigC) (elapsedMs : Int) : Prop :=
  (elapsedMs : ℚ) > 2 * (1000 / effectiveFrameRate config.frameRate)

/-- C4: for every configuration whose `audioChannels` is outside {1,2} or
whose `audioSampleRate` is non-positive, `AudioCaptureImpl::start` reports
an invalid-configuration error and returns false before any device or
platform resource is opened: no converter, enumerator, device, client,
format or event handle is created, and no capture thread is launched. -/
theorem audioStart_invalid_config (config : MediaCaptureConfigC)
    (env : AudioEnv)
    (h : (config.audioChannels ≠ 1 ∧ config.audioChannels ≠ 2) ∨
      config.audioSampleRate ≤ 0) :
    (audioStart config env).ok = false ∧
    ((audioStart config env).err = some AudioStartErr.badChannels ∨
     (audioStart config env).err = some AudioStartErr.badSampleRate) ∧
    (audioStart config env).handles = AudioHandles.none ∧
    (audioStart config env).capturing = false := by
  by_cases hc : config.audioChannels ≤ 0 ∨ 2 < config.audioChannels
  · unfold audioStart
    rw [if_pos hc]
    exact ⟨rfl, Or.inl rfl, rfl, rfl⟩
  · have hr : config.audioSampleRate ≤ 0 := by
      rcases h with ⟨h1, h2⟩ | h2
      · exact absurd (by omega) hc
      · exact h2
    unfold audioStart
    rw [if_neg hc, if_pos hr]
    exact ⟨rfl, Or.inr rfl, rfl, rfl⟩

/-- A device environment in which every platform call succeeds and the
negotiated mix format is the supported 32-bit IEEE-float stereo one. -/
def healthyEnv : AudioEnv :=
  { comOk := true, srcNewOk := true, coCreateOk := true, endpointOk := true
    activateOk := true, mixFormatOk := true
    mixFormat := { wFormatTag := 0xFFFE, subFormatIsIEEEFloat := true
                   wBitsPerSample := 32, nChannels := 2
                   nSamplesPerSec := 48000 }
    createEventOk := true, initializeOk := true, setEventOk := true
    getServiceOk := true, clientStartOk := true }

/-- A configuration requesting three audio channels, otherwise sound. -/
def threeChannelConfig : MediaCaptureConfigC :=
  { frameRate := 30, quality := 0, audioSampleRate := 48000
    audioChannels := 3, displayID := 0, windowID := 0, isElectron := 0
    qualityValue := 0, imageFormat := 0 }

/-- Witness for C4: a three-channel request against a healthy device is
rejected with the channel error and opens nothing. -/
theorem audioStart_invalid_config_witness :
    ((threeChannelConfig.audioChannels ≠ 1 ∧
      threeChannelConfig.audioChannels ≠ 2) ∨
      threeChannelConfig.audioSampleRate ≤ 0) ∧
    ((audioStart threeChannelConfig healthyEnv).ok = false ∧
     ((audioStart threeChannelConfig healthyEnv).err =
        some AudioStartErr.badChannels ∨
      (audioStart threeChannelConfig healthyEnv).err =
        some AudioStartErr.badSampleRate) ∧
     (audioStart threeChannelConfig healthyEnv).handles =
        AudioHandles.none ∧
     (audioStart threeChannelConfig healthyEnv).capturing = false) :=
  ⟨by decide, audioStart_invalid_config threeChannelConfig healthyEnv
    (by decide)⟩

/-- A device environment identical to `healthyEnv` except that the mix
format negotiated by `GetMixFormat` is 16-bit PCM rather than 32-bit
IEEE float. -/
def pcm16Env : AudioEnv :=
  { healthyEnv with
    mixFormat := { wFormatTag := 1, subFormatIsIEEEFloat := false
                   wBitsPerSample := 16, nChannels := 2
                   nSamplesPerSec := 48000 } }

/-- A valid stereo 48 kHz capture request. -/
def stereo48Config : MediaCaptureConfigC :=
  { frameRate := 30, quality := 0, audioSampleRate := 48000
    audioChannels := 2, displayID := 0, windowID := 0, isElectron := 0
    qualityValue := 0, imageFormat := 0 }

/-- C5, observed divergence: when the negotiated native format is not
32-bit IEEE float, `AudioCaptureImpl::start` does fail with the
unsupported-format error, but it returns with the sample-rate converter,
the device, the audio client and the mix format still held — the
partially-opened resources are not released, contradicting the claim that
the handle state is left as if `start` had never run. -/
theorem audioStart_unsupported_format_leaks :
    (audioStart stereo48Config pcm16Env).ok = false ∧
    (audioStart stereo48Config pcm16Env).err =
      some AudioStartErr.unsupportedFormat ∧
    (audioStart stereo48Config pcm16Env).handles.device = true ∧
    (audioStart stereo48Config pcm16Env).handles.audioClient = true ∧
    (audioStart stereo48Config pcm16Env).handles.format = true ∧
    (audioStart stereo48Config pcm16Env).handles.sampleRateConverter =
      true ∧
    (audioStart stereo48Config pcm16Env).handles ≠ AudioHandles.none := by
  decide

/-- List-range sums agree with finite-set sums (bridging lemma). -/
theorem list_range_map_sum (f : Nat → ℚ) (n : Nat) :
    ((List.range n).map f).sum = ∑ ch ∈ Finset.range n, f ch := by
  induction n with
  | zero => simp
  | succ k ih =>
    rw [List.range_succ, Finset.sum_range_succ, List.map_append,
      List.sum_append, ih]
    simp

/-- Shared helper: on a non-silent, non-empty packet whose native rate
already equals the target rate, `processPacket` takes the direct-delivery
branch of lines 358–366: the resampler is not consulted (the state is
returned untouched) and the converted buffer is delivered with the
packet's own frame count. -/
theorem processPacket_sameRate {σ : Type} (config : MediaCaptureConfigC)
    (format : WaveFormat) (resample : σ → List ℚ → Nat → ResampleOut σ)
    (st : σ) (pkt : AudioPacket)
    (hsil : pkt.silent = false) (hf : 0 < pkt.frames)
    (hrate : format.nSamplesPerSec = config.audioSampleRate) :
    processPacket config format resample st pkt =
      (st, some { channels := config.audioChannels
                  sampleRate := config.audioSampleRate
                  buffer := convertChannels format.nChannels
                    config.audioChannels pkt.frames pkt.samples
                  frameCount := pkt.frames }) := by
  unfold processPacket
  rw [if_pos (And.intro hsil hf), if_neg (fun hcon => hcon hrate), hrate]

/-- Shared helper: a silent or empty packet produces no delivery and
leaves the resampler state untouched. -/
theorem processPacket_skip {σ : Type} (config : MediaCaptureConfigC)
    (format : WaveFormat) (resample : σ → List ℚ → Nat → ResampleOut σ)
    (st : σ) (pkt : AudioPacket)
    (hg : ¬(pkt.silent = false ∧ 0 < pkt.frames)) :
    processPacket config format resample st pkt = (st, Option.none) := by
  unfold processPacket
  rw [if_neg hg]

/-- Embeds the stereo-to-mono merge of the legacy audio client
(`captureclient.cc` lines 269–273): each mono sample is
`0.5 * (left + right)`. -/
def stereoToMono (stereo : List ℚ) (numFrames : Nat) : List ℚ :=
  (List.range numFrames).map fun i =>
    (1 / 2 : ℚ) * (stereo.getD (i * 2) 0 + stereo.getD (i * 2 + 1) 0)

/-- Supporting lemma: the legacy stereo merge also computes the
arithmetic mean of the two channels of each frame. -/
theorem stereoToMono_is_mean (stereo : List ℚ) (numFrames i : Nat)
    (hi : i < numFrames) :
    (stereoToMono stereo numFrames).getD i 0 =
      (∑ ch ∈ Finset.range 2, stereo.getD (i * 2 + ch) 0) / 2 := by
  unfold stereoToMono
  rw [List.getD_eq_getElem?_getD, List.getElem?_map, List.getElem?_range hi]
  simp only [Option.map_some', Option.getD_some, Finset.sum_range_succ,
    Finset.sum_range_zero, Nat.add_zero, zero_add]
  ring

/-- C2: when the device's native channel count exceeds the requested
output channel count of 1, the channel conversion of
`captureThreadProc` maps every frame to the arithmetic mean of all its
native channel samples, and produces exactly one output sample per
frame.  In `processPacket` this conversion is applied before the
resampler sees the data. -/
theorem downmix_is_arithmetic_mean (nativeChannels frames : Nat)
    (buf : List ℚ) (i : Nat) (hch : 1 < nativeChannels) (hi : i < frames) :
    (convertChannels nativeChannels 1 frames buf).getD i 0 =
      (∑ ch ∈ Finset.range nativeChannels,
        buf.getD (i * nativeChannels + ch) 0) / nativeChannels ∧
    (convertChannels nativeChannels 1 frames buf).length = frames := by
  unfold convertChannels
  rw [if_pos (And.intro hch rfl)]
  refine ⟨?_, by simp⟩
  rw [List.getD_eq_getElem?_getD, List.getElem?_map, List.getElem?_range hi]
  simp [list_range_map_sum]

/-- Witness for C2, the spec's concrete test: the stereo frame
[L = 1.0, R = −1.0] requested as one channel downmixes to exactly 0. -/
theorem downmix_is_arithmetic_mean_witness :
    ((convertChannels 2 1 1 [(1 : ℚ), -1]).getD 0 0 =
      (∑ ch ∈ Finset.range 2, [(1 : ℚ), -1].getD (0 * 2 + ch) 0) / 2 ∧
     (convertChannels 2 1 1 [(1 : ℚ), -1]).length = 1) ∧
    (convertChannels 2 1 1 [(1 : ℚ), -1]).getD 0 0 = 0 := by
  have h := downmix_is_arithmetic_mean 2 1 [(1 : ℚ), -1] 0
    (by decide) (by decide)
  refine ⟨h, ?_⟩
  rw [h.1]
  rw [Finset.sum_range_succ, Finset.sum_range_succ]
  norm_num

/-- C3: when the native sample rate equals the configured target rate,
the resampling step is skipped (the resampler state is not touched) and
the delivered buffer is numerically the (possibly downmixed) converted
buffer with the packet's own frame count. -/
theorem equal_rate_skips_resampler {σ : Type}
    (config : MediaCaptureConfigC) (format : WaveFormat)
    (resample : σ → List ℚ → Nat → ResampleOut σ) (st : σ)
    (pkt : AudioPacket) (hsil : pkt.silent = false) (hf : 0 < pkt.frames)
    (hrate : format.nSamplesPerSec = config.audioSampleRate) :
    processPacket config format resample st pkt =
      (st, some { channels := config.audioChannels
                  sampleRate := config.audioSampleRate
                  buffer := convertChannels format.nChannels
                    config.audioChannels pkt.frames pkt.samples
                  frameCount := pkt.frames }) ∧
    (format.nChannels = 1 →
      convertChannels format.nChannels config.audioChannels pkt.frames
        pkt.samples = pkt.samples) := by
  refine ⟨processPacket_sameRate config format resample st pkt hsil hf
    hrate, fun hmono => ?_⟩
  unfold convertChannels
  rw [if_neg]
  rw [hmono]
  omega

/-- A mono 48 kHz capture request (the spec's idempotence test). -/
def mono48Config : MediaCaptureConfigC :=
  { frameRate := 30, quality := 0, audioSampleRate := 48000
    audioChannels := 1, displayID := 0, windowID := 0, isElectron := 0
    qualityValue := 0, imageFormat := 0 }

/-- A mono 48 kHz native device format. -/
def mono48Format : WaveFormat :=
  { wFormatTag := 0xFFFE, subFormatIsIEEEFloat := true
    wBitsPerSample := 32, nChannels := 1, nSamplesPerSec := 48000 }

/-- A one-frame non-silent packet. -/
def onePacket : AudioPacket := { silent := false, frames := 1, samples := [1] }

/-- A packet carrying the `AUDCLNT_BUFFERFLAGS_SILENT` flag. -/
def silentPacket : AudioPacket := { silent := true, frames := 1, samples := [1] }

/-- A trivial concrete resampler oracle used by the witnesses. -/
def idResample : Unit → List ℚ → Nat → ResampleOut Unit :=
  fun st buf _n => ResampleOut.ok st buf buf.length

/-- Witness for C3: a mono 48 kHz packet captured with target rate 48000
is delivered numerically equal to the input, with the same frame count. -/
theorem equal_rate_skips_resampler_witness :
    (onePacket.silent = false ∧ 0 < onePacket.frames ∧
      mono48Format.nSamplesPerSec = mono48Config.audioSampleRate) ∧
    processPacket mono48Config mono48Format idResample () onePacket =
      ((), some { channels := mono48Config.audioChannels
                  sampleRate := mono48Config.audioSampleRate
                  buffer := convertChannels mono48Format.nChannels
                    mono48Config.audioChannels onePacket.frames
                    onePacket.samples
                  frameCount := onePacket.frames }) ∧
    convertChannels mono48Format.nChannels mono48Config.audioChannels
      onePacket.frames onePacket.samples = onePacket.samples :=
  ⟨⟨rfl, by decide, rfl⟩,
   (equal_rate_skips_resampler mono48Config mono48Format idResample ()
      onePacket rfl (by decide) rfl).1,
   (equal_rate_skips_resampler mono48Config mono48Format idResample ()
      onePacket rfl (by decide) rfl).2 rfl⟩

/-- C10: whatever the packet, the format and the resampler behaviour,
every delivery made to the audio data callback reports the configured
channel count, the configured sample rate, and a strictly positive frame
count (an empty batch is never delivered, even when the resampler
generates zero frames). -/
theorem delivered_fields {σ : Type} (config : MediaCaptureConfigC)
    (format : WaveFormat) (resample : σ → List ℚ → Nat → ResampleOut σ)
    (st : σ) (pkt : AudioPacket) (st1 : σ) (d : Delivered)
    (h : processPacket config format resample st pkt = (st1, some d)) :
    d.channels = config.audioChannels ∧
    d.sampleRate = config.audioSampleRate ∧ 0 < d.frameCount := by
  unfold processPacket at h
  split at h
  · next hg =>
    split at h
    · next hne =>
      split at h
      · simp at h
      · next st2 out gen =>
        split at h
        · next hgen =>
          simp only [Prod.mk.injEq, Option.some.injEq] at h
          rcases h with ⟨h1, h2⟩
          rw [← h2]
          exact ⟨rfl, rfl, hgen⟩
        · simp at h
    · next hne =>
      have hrate : format.nSamplesPerSec = config.audioSampleRate :=
        Decidable.not_not.mp hne
      simp only [Prod.mk.injEq, Option.some.injEq] at h
      rcases h with ⟨h1, h2⟩
      rw [← h2]
      exact ⟨rfl, hrate, hg.2⟩
  · simp at h

/-- Witness for C10 at a concrete packet and resampler. -/
theorem delivered_fields_witness :
    processPacket mono48Config mono48Format idResample () onePacket =
      ((), some { channels := 1, sampleRate := 48000, buffer := [1]
                  frameCount := 1 }) ∧
    ((1 : Int) = mono48Config.audioChannels ∧
     (48000 : Int) = mono48Config.audioSampleRate ∧ 0 < (1 : Nat)) :=
  ⟨by decide,
   delivered_fields mono48Config mono48Format idResample () onePacket ()
     { channels := 1, sampleRate := 48000, buffer := [1], frameCount := 1 }
     (by decide)⟩

/-- C6, observed divergence: one drain cycle does not deliver exactly one
frame batch.  A wake-up that drains two pending non-silent packets makes
two deliveries, and a wake-up that finds no packet (or only silent ones)
makes none. -/
theorem drainCycle_not_exactly_one :
    ((drainCycle mono48Config mono48Format idResample ()
        [onePacket, onePacket]).2).length = 2 ∧
    ((drainCycle mono48Config mono48Format idResample ()
        ([] : List AudioPacket)).2).length = 0 ∧
    ((drainCycle mono48Config mono48Format idResample ()
        [silentPacket]).2).length = 0 := by
  decide

/-- C6 amended: per drain cycle, the capture thread makes one delivery
for each non-silent, non-empty packet it drains (stated here on the
rate-match path, where the resampler cannot suppress a delivery); the
number of deliveries per cycle is therefore the number of such pending
packets, which may be zero or greater than one. -/
theorem drainCycle_count {σ : Type} (config : MediaCaptureConfigC)
    (format : WaveFormat) (resample : σ → List ℚ → Nat → ResampleOut σ)
    (st : σ) (pkts : List AudioPacket)
    (hrate : format.nSamplesPerSec = config.audioSampleRate) :
    ((drainCycle config format resample st pkts).2).length =
      pkts.countP (fun p => !p.silent && decide (0 < p.frames)) := by
  induction pkts generalizing st with
  | nil => rfl
  | cons pkt rest ih =>
    by_cases hg : pkt.silent = false ∧ 0 < pkt.frames
    · simp only [drainCycle,
        processPacket_sameRate config format resample st pkt hg.1 hg.2 hrate]
      simp [List.countP_cons, hg.1, hg.2, ih]
    · simp only [drainCycle,
        processPacket_skip config format resample st pkt hg]
      have hb : (!pkt.silent && decide (0 < pkt.frames)) = false := by
        cases hps : pkt.silent <;> simp_all
      simp [List.countP_cons, hb, ih]

/-- Witness for C6's amended count: a cycle draining one non-silent and
one silent packet delivers exactly one batch. -/
theorem drainCycle_count_witness :
    mono48Format.nSamplesPerSec = mono48Config.audioSampleRate ∧
    ((drainCycle mono48Config mono48Format idResample ()
        [onePacket, silentPacket]).2).length =
      [onePacket, silentPacket].countP
        (fun p => !p.silent && decide (0 < p.frames)) ∧
    [onePacket, silentPacket].countP
        (fun p => !p.silent && decide (0 < p.frames)) = 1 :=
  ⟨rfl,
   drainCycle_count mono48Config mono48Format idResample ()
     [onePacket, silentPacket] rfl,
   by decide⟩

/-- A configuration with no display or window target selected. -/
def noTargetConfig : MediaCaptureConfigC :=
  { frameRate := 30, quality := 0, audioSampleRate := 48000
    audioChannels := 2, displayID := 0, windowID := 0, isElectron := 0
    qualityValue := 0, imageFormat := 0 }

/-- Start inputs requesting only audio, whose audio start fails. -/
def audioOnlyFailedInputs : MediaStartInputs :=
  { alreadyCapturing := false, hasAudioCallback := true
    hasVideoCallback := false, audioStartOk := false
    videoStartOk := false }

/-- C1, observed divergence: when only the audio sub-engine is requested
and its start fails, every requested sub-engine has failed, yet
`MediaCaptureClient::startCapture` still returns true, because the video
result flag keeps its default `true` when video is never attempted. -/
theorem mediaStartCapture_claim_false :
    audioAttempted audioOnlyFailedInputs = true ∧
    audioOnlyFailedInputs.audioStartOk = false ∧
    videoAttempted noTargetConfig audioOnlyFailedInputs = false ∧
    audioOnlyFailedInputs.alreadyCapturing = false ∧
    mediaStartCapture noTargetConfig audioOnlyFailedInputs = true := by
  decide

/-- C1 amended: `startCapture` returns false exactly when a capture is
already in progress, or when both sub-engines were actually attempted and
both failed; a requested sub-engine that is not attempted (no video
target) or that is the only one attempted and fails cannot by itself make
the call fail, because each result flag defaults to true. -/
theorem mediaStartCapture_false_iff (config : MediaCaptureConfigC)
    (inp : MediaStartInputs) :
    mediaStartCapture config inp = false ↔
      (inp.alreadyCapturing = true ∨
       (audioAttempted inp = true ∧ inp.audioStartOk = false ∧
        videoAttempted config inp = true ∧ inp.videoStartOk = false)) := by
  cases hac : inp.alreadyCapturing <;>
    cases ha : audioAttempted inp <;>
      cases hv : videoAttempted config inp <;>
        cases hao : inp.audioStartOk <;>
          cases hvo : inp.videoStartOk <;>
            simp_all [mediaStartCapture]

/-- A configuration selecting the low-quality tier together with an
explicit numeric quality override of 50. -/
def tier2Override50Config : MediaCaptureConfigC :=
  { frameRate := 30, quality := 2, audioSampleRate := 48000
    audioChannels := 2, displayID := 1, windowID := 0, isElectron := 0
    qualityValue := 50, imageFormat := 0 }

/-- C7, observed divergence: the tier mapping 0→95, 1→85, 2→75 is what
the encoder uses, but the numeric `qualityValue` override documented in
`capture.h` is never read by `VideoCaptureImpl`: with tier 2 and override
50 the encoder quality is 75, not 50, and the selected quality is
invariant under any change of `qualityValue`. -/
theorem encoderQuality_ignores_override :
    tier2Override50Config.qualityValue = 50 ∧
    encoderQuality tier2Override50Config = 75 ∧
    claimedEncoderQuality tier2Override50Config = 50 ∧
    encoderQuality tier2Override50Config ≠
      claimedEncoderQuality tier2Override50Config ∧
    (∀ (config : MediaCaptureConfigC) (v : Int),
      encoderQuality { config with qualityValue := v } =
        encoderQuality config) :=
  ⟨by decide, by decide, by decide, by decide, fun config v => rfl⟩

/-- A configuration requesting the raw (uncompressed) image format. -/
def rawFormatConfig : MediaCaptureConfigC :=
  { frameRate := 30, quality := 0, audioSampleRate := 48000
    audioChannels := 2, displayID := 1, windowID := 0, isElectron := 0
    qualityValue := 0, imageFormat := 1 }

/-- C8, observed divergence: `VideoCaptureImpl` encodes every delivered
frame with the JPEG encoder and tags it with the literal string of line
359, regardless of the configuration's `imageFormat` field (documented in
`capture.h` as 0 = jpeg, 1 = raw); the delivered timestamp is the
millisecond clock value truncated to 32 bits. -/
theorem videoDelivery_always_jpeg :
    rawFormatConfig.imageFormat = 1 ∧
    claimedFormatTag rawFormatConfig = "raw" ∧
    deliverVideoFrame rawFormatConfig 4 4 16 1234 [1, 2, 3] =
      some { formatTag := "jpeg", timestampMs := 1234, width := 4
             height := 4, bytesPerRow := 16, byteLength := 3 } ∧
    (deliverVideoFrame rawFormatConfig 4 4 16 1234 [1, 2, 3]).map
      (fun f => f.formatTag) ≠ some (claimedFormatTag rawFormatConfig) := by
  refine ⟨rfl, rfl, ?_, ?_⟩ <;> decide

/-- A configuration with a 7 frames-per-second target. -/
def sevenFpsConfig : MediaCaptureConfigC :=
  { frameRate := 7, quality := 0, audioSampleRate := 48000
    audioChannels := 2, displayID := 1, windowID := 0, isElectron := 0
    qualityValue := 0, imageFormat := 0 }

/-- C9, observed divergence: at 7 fps the engine's pacing interval is
`⌊1000/7⌋ = 142` ms, so `captureFrame` forces a capture once the elapsed
time exceeds 284 ms — at 285 ms it proceeds, although the claimed
threshold `2 × 1000/7 ≈ 285.7` ms has not been exceeded yet. -/
theorem forceDecision_counterexample :
    captureFrameProceeds sevenFpsConfig AcquireOutcome.timeout 285 = true ∧
    ¬ claimedForce sevenFpsConfig 285 := by
  constructor
  · unfold captureFrameProceeds
    rw [decide_eq_true_eq]
    norm_num [frameIntervalMs, effectiveFrameRate, sevenFpsConfig]
  · unfold claimedForce effectiveFrameRate
    norm_num [sevenFpsConfig]

/-- C9 amended: on an acquisition timeout the iteration proceeds (forcing
a capture of the staged frame) if and only if the elapsed milliseconds
since the last successful acquisition exceed twice the engine's pacing
interval `⌊1000 / frameRate⌋` (with the frame rate defaulting to 30 when
non-positive); otherwise the iteration is skipped.  The truncated
interval never exceeds the spec's untruncated `1000 / frameRate`, so the
forced capture happens no later than one millisecond past the claimed
`2 × (1000/frameRate)` bound. -/
theorem forceDecision_iff (config : MediaCaptureConfigC)
    (elapsedMs : Int) :
    (captureFrameProceeds config AcquireOutcome.timeout elapsedMs = true ↔
      2 * frameIntervalMs config.frameRate < elapsedMs) ∧
    (frameIntervalMs config.frameRate : ℚ) ≤
      1000 / effectiveFrameRate config.frameRate := by
  constructor
  · unfold captureFrameProceeds
    rw [decide_eq_true_eq]
    have key : (2000 : ℚ) /
        (1000 / (frameIntervalMs config.frameRate : ℚ)) =
        2 * (frameIntervalMs config.frameRate : ℚ) := by
      rw [div_div_eq_mul_div]
      ring
    rw [key]
    constructor
    · intro h
      exact_mod_cast h
    · intro h
      exact_mod_cast h
  · exact Int.floor_le _

end Capture
